import Mathlib

/-!
Verification of the tool dispatch core of the `mcp_weather_server` repository.

The registry and dispatcher (`add_tool_handler`, `get_tool_handler`,
`register_all_tools`, `list_tools`, `call_tool`) are embedded from
`src/mcp_weather_server/server.py`.  The tool handler modules
(`tools/toolhandler.py`, `tools/tools_weather.py`, `tools/weather_service.py`)
are not part of the sources at hand; the pieces of them that the claims need
are modelled from the specification and are marked `Modelled from the spec:`
in their doc comments.
-/

set_option autoImplicit false

namespace McpWeather

/-- A Python value, as far as the dispatcher inspects it: `call_tool` only
tests `isinstance(arguments, dict)` and handlers read string-keyed entries. -/
inductive PyValue where
  | dict (entries : List (String × PyValue))
  | str (s : String)
  | int (n : Int)
  | pynone
  deriving Repr

/-- `isinstance(v, dict)` for the values of our model. -/
def PyValue.isDict : PyValue → Bool
  | .dict _ => true
  | _ => false

/-- A Python exception, as raised by the dispatcher and the inner components.
`runtimeError` and `valueError` are the classes `server.py` raises itself;
`notFoundError` and `upstreamError` are the taxonomy errors of the weather
components; `otherExc` stands for any further exception a handler may raise. -/
inductive PyExc where
  | runtimeError (msg : String)
  | valueError (msg : String)
  | notFoundError (msg : String)
  | upstreamError (msg : String)
  | otherExc (msg : String)
  deriving Repr, DecidableEq

/-- `str(e)`: the message carried by the exception. -/
def PyExc.msg : PyExc → String
  | .runtimeError m => m
  | .valueError m => m
  | .notFoundError m => m
  | .upstreamError m => m
  | .otherExc m => m

/-- `mcp.types.TextContent`: the only Content variant this core produces. -/
structure TextContent where
  type : String
  text : String
  deriving Repr, DecidableEq

/-- `mcp.types` content union returned by `call_tool`:
text, image or embedded resource. -/
inductive Content where
  | text (c : TextContent)
  | image (data : String) (mimeType : String)
  | resource (uri : String)
  deriving Repr, DecidableEq

/-- `mcp.types.Tool`: the descriptor `list_tools` returns for each handler. -/
structure Tool where
  name : String
  description : String
  inputSchema : String
  deriving Repr, DecidableEq

/-- The external provider responses visible to one dispatch: a geocoding
response body and a weather response body.  Mirrors the mock fixtures of
`tests/conftest.py`. -/
structure GeoResult where
  latitude : Rat
  longitude : Rat
  deriving Repr, DecidableEq

/-- Geocoding response: a JSON body with a `results` array;
empty array = not found. -/
structure GeoResponse where
  results : List GeoResult
  deriving Repr, DecidableEq

/-- Weather response: an `hourly` object of parallel arrays keyed by field
name, as in the mock fixtures of `tests/conftest.py`. -/
structure HourlyData where
  time : List String
  temperature_2m : List Rat
  relative_humidity_2m : List Int
  dew_point_2m : List Rat
  weather_code : List Int
  deriving Repr, DecidableEq

/-- The upstream world a dispatch runs against: the responses the geocoding
and weather providers would return to it. -/
structure Upstream where
  geo : GeoResponse
  weather : HourlyData
  deriving Repr, DecidableEq

/-- A tool handler: a name, descriptor data, and `run_tool`, which consumes
the argument mapping (and the upstream responses its network calls would
see) and either returns content or raises. -/
structure ToolHandler where
  name : String
  description : String
  inputSchema : String
  run_tool : Upstream → List (String × PyValue) → Except PyExc (List Content)

/-- Modelled from the spec: `toolhandler.py` is not among the sources;
per the spec each handler's `get_tool_description()` returns the
ToolDescriptor whose name is the handler's declared name. -/
def ToolHandler.get_tool_description (h : ToolHandler) : Tool :=
  { name := h.name, description := h.description, inputSchema := h.inputSchema }

/-- The global `tool_handlers: Dict[str, ToolHandler]`, as an insertion-ordered
association list: exactly the observable behaviour of a Python `dict`. -/
abbrev Registry := List (String × ToolHandler)

/-- Python `d[k] = v`: replace in place when the key exists (keeping its
position), append otherwise. -/
def dictSet : List (String × ToolHandler) → String → ToolHandler → List (String × ToolHandler)
  | [], k, v => [(k, v)]
  | (k', v') :: rest, k, v =>
    if k' = k then (k, v) :: rest else (k', v') :: dictSet rest k v

/-- Python `d.get(k)`. -/
def dictGet : List (String × ToolHandler) → String → Option ToolHandler
  | [], _ => none
  | (k', v') :: rest, k => if k' = k then some v' else dictGet rest k

/-- Python dict lookup on the argument mapping a handler receives. -/
def argsGet : List (String × PyValue) → String → Option PyValue
  | [], _ => none
  | (k', v') :: rest, k => if k' = k then some v' else argsGet rest k

/-- `add_tool_handler` (server.py:43): `tool_handlers[tool_handler.name] = tool_handler`. -/
def add_tool_handler (reg : Registry) (tool_handler : ToolHandler) : Registry :=
  dictSet reg tool_handler.name tool_handler

/-- `get_tool_handler` (server.py:55): `return tool_handlers.get(name)`. -/
def get_tool_handler (reg : Registry) (name : String) : Option ToolHandler :=
  dictGet reg name

/-- `list_tools` (server.py:88):
`[handler.get_tool_description() for handler in tool_handlers.values()]`. -/
def list_tools (reg : Registry) : List Tool :=
  reg.map fun p => p.2.get_tool_description

/-- The `try:` body of `call_tool` (server.py:120-136), instrumented with the
list of handlers it invokes: reject non-dict arguments with
`RuntimeError("Arguments must be a dictionary")`, look the handler up and
raise `ValueError(f"Unknown tool: {name}")` when absent, otherwise await
`tool_handler.run_tool(arguments)`. -/
def call_tool_body (reg : Registry) (u : Upstream) (name : String) (arguments : PyValue) :
    Except PyExc (List Content) × List String :=
  match arguments with
  | .dict entries =>
    match get_tool_handler reg name with
    | none => (.error (.valueError ("Unknown tool: " ++ name)), [])
    | some tool_handler => (tool_handler.run_tool u entries, [tool_handler.name])
  | _ => (.error (.runtimeError "Arguments must be a dictionary"), [])

/-- The single error text Content the dispatcher synthesizes in its
`except` clause (server.py:144-149). -/
def errorContent (name msg : String) : List Content :=
  [Content.text { type := "text", text := "Error executing tool '" ++ name ++ "': " ++ msg }]

/-- `call_tool` (server.py:105-149): run the body; on success return its
content, on any exception return the single error text content
`Error executing tool '<name>': <message>`. -/
def call_tool (reg : Registry) (u : Upstream) (name : String) (arguments : PyValue) :
    List Content :=
  match (call_tool_body reg u name arguments).1 with
  | .ok result => result
  | .error e => errorContent name e.msg

/-- The handler invocations one `call_tool` performs. -/
def call_tool_invoked (reg : Registry) (u : Upstream) (name : String) (arguments : PyValue) :
    List String :=
  (call_tool_body reg u name arguments).2

/-- `call_tool` as a transformer of the global registry state: the body of
`call_tool` contains no assignment to `tool_handlers`, so the post-state is
the pre-state. -/
def call_tool_st (reg : Registry) (u : Upstream) (name : String) (arguments : PyValue) :
    List Content × Registry :=
  (call_tool reg u name arguments, reg)

/-- `list_tools` as a transformer of the global registry state: its body
contains no assignment to `tool_handlers`. -/
def list_tools_st (reg : Registry) : List Tool × Registry :=
  (list_tools reg, reg)

/-!  The weather pipeline.  Its modules are not among the sources at hand;
the following definitions are modelled from the specification (§4.1, §4.2,
§4.3) and from the mock fixtures in `tests/conftest.py`. -/

/-- Modelled from the spec: the Coordinate Resolver (`weather_service.py`,
absent from the sources).  Takes the first result's latitude/longitude;
signals `NotFoundError` mentioning that the city was not found when the
provider returns zero results. -/
def resolve_coordinates (city : String) (geo : GeoResponse) : Except PyExc (Rat × Rat) :=
  match geo.results with
  | [] => .error (.notFoundError ("City '" ++ city ++ "' not found"))
  | r :: _ => .ok (r.latitude, r.longitude)

/-- Modelled from the spec: the static weather-code → description lookup
table (`weather_service.py`, absent from the sources).  The spec pins codes
0 and 1; every code absent from the table maps to the generic
"Unknown" description rather than failing. -/
def weather_description (code : Int) : String :=
  if code = 0 then "Clear sky"
  else if code = 1 then "Mainly clear"
  else "Unknown"

/-- One hourly weather sample, fields as in the spec's data model and the
fixtures of `tests/conftest.py`. -/
structure WeatherReading where
  timestamp : String
  temperature_c : Rat
  relative_humidity_percent : Int
  dew_point_c : Rat
  weather_code : Int
  weather_descr : String
  deriving Repr, DecidableEq

/-- Zip the provider's parallel hourly arrays into one reading per index,
translating each weather code through the lookup table. -/
def zipReadings : List String → List Rat → List Int → List Rat → List Int → List WeatherReading
  | t :: ts, c :: cs, h :: hs, d :: ds, w :: ws =>
    { timestamp := t, temperature_c := c, relative_humidity_percent := h,
      dew_point_c := d, weather_code := w,
      weather_descr := weather_description w } :: zipReadings ts cs hs ds ws
  | _, _, _, _, _ => []

/-- Modelled from the spec: Weather Lookup (`weather_service.py`, absent
from the sources).  Zips the parallel arrays of the `hourly` object into one
WeatherReading per index; signals `DataShapeError` when the array lengths
mismatch. -/
def fetch_readings (h : HourlyData) : Except PyExc (List WeatherReading) :=
  if h.temperature_2m.length = h.time.length ∧
     h.relative_humidity_2m.length = h.time.length ∧
     h.dew_point_2m.length = h.time.length ∧
     h.weather_code.length = h.time.length then
    .ok (zipReadings h.time h.temperature_2m h.relative_humidity_2m
      h.dew_point_2m h.weather_code)
  else
    .error (.otherExc "DataShapeError: hourly array lengths mismatch")

/-- Render one reading into the text body of a result Content. -/
def renderReading (r : WeatherReading) : String :=
  r.timestamp ++ " code " ++ toString r.weather_code ++ " " ++ r.weather_descr

/-- Modelled from the spec: the CurrentWeather handler's `run_tool`
(`tools_weather.py`, absent from the sources).  Requires the `city`
argument (`InvalidArgumentError` when missing or malformed), resolves
coordinates, fetches the readings and returns a single text Content;
resolver and lookup failures propagate to the dispatcher. -/
def get_current_weather_run (u : Upstream) (args : List (String × PyValue)) :
    Except PyExc (List Content) :=
  match argsGet args "city" with
  | some (.str city) =>
    match resolve_coordinates city u.geo with
    | .error e => .error e
    | .ok _ =>
      match fetch_readings u.weather with
      | .error e => .error e
      | .ok readings =>
        .ok [Content.text
          { type := "text",
            text := "Current weather in " ++ city ++ ": " ++
              String.intercalate "; " (readings.map renderReading) }]
  | _ => .error (.valueError "Missing required argument: city")

/-- Modelled from the spec: the `GetCurrentWeatherToolHandler` of
`tools_weather.py` (absent from the sources), with its declared name and
descriptor data. -/
def GetCurrentWeatherToolHandler : ToolHandler where
  name := "get_current_weather"
  description := "Get current weather information for a specified city"
  inputSchema := "city"
  run_tool := get_current_weather_run

/-- Modelled from the spec: a remaining handler of the catalogue (§4.3);
only its declared name and descriptor matter to the claims at hand. -/
def specHandler (n d : String) : ToolHandler where
  name := n
  description := d
  inputSchema := d
  run_tool := fun _ _ => .error (.valueError "Missing required arguments")

/-- `register_all_tools` (server.py:68): register the three weather handlers
and the three time handlers, in this order, into the given registry state.
All handlers but the first are modelled from the spec's handler catalogue. -/
def register_all_tools (reg : Registry) : Registry :=
  add_tool_handler (add_tool_handler (add_tool_handler (add_tool_handler
    (add_tool_handler (add_tool_handler reg
      GetCurrentWeatherToolHandler)
      (specHandler "get_weather_by_date_range" "Get weather for a date range"))
      (specHandler "get_weather_details" "Get detailed weather information"))
      (specHandler "get_current_datetime" "Get the current date and time"))
      (specHandler "get_timezone_info" "Get timezone information"))
      (specHandler "convert_time" "Convert a time between timezones")

/-- The mock geocoding response of `tests/conftest.py`. -/
def mock_geo_response : GeoResponse :=
  { results := [{ latitude := 40.7128, longitude := -74.0060 }] }

/-- The empty mock geocoding response of `tests/conftest.py`. -/
def mock_empty_geo_response : GeoResponse := { results := [] }

/-- The mock weather response of `tests/conftest.py`: hourly arrays of
length 2 with weather codes `[0, 1]`. -/
def mock_weather_response : HourlyData :=
  { time := ["2024-01-01T12:00", "2024-01-01T13:00"],
    temperature_2m := [20, 21],
    relative_humidity_2m := [65, 66],
    dew_point_2m := [13, 14],
    weather_code := [0, 1] }

/-- Upstream world built from the mock fixtures. -/
def mock_upstream : Upstream :=
  { geo := mock_geo_response, weather := mock_weather_response }

/-- Upstream world whose geocoding lookup finds nothing. -/
def not_found_upstream : Upstream :=
  { geo := mock_empty_geo_response, weather := mock_weather_response }

/-- The readings the mock weather response zips into. -/
def mock_readings : List WeatherReading :=
  [{ timestamp := "2024-01-01T12:00", temperature_c := 20,
     relative_humidity_percent := 65, dew_point_c := 13,
     weather_code := 0, weather_descr := "Clear sky" },
   { timestamp := "2024-01-01T13:00", temperature_c := 21,
     relative_humidity_percent := 66, dew_point_c := 14,
     weather_code := 1, weather_descr := "Mainly clear" }]

/-- Two handlers sharing the declared name `dup`, used to exercise duplicate
registration. -/
def dup_handler_A : ToolHandler where
  name := "dup"
  description := "handler A"
  inputSchema := "a"
  run_tool := fun _ _ => .ok []

/-- Second handler with the duplicate declared name `dup`. -/
def dup_handler_B : ToolHandler where
  name := "dup"
  description := "handler B"
  inputSchema := "b"
  run_tool := fun _ _ => .ok []

/-- Well-formedness of the registry: keys are unique and each key is its
handler's declared name.  Holds for the empty initial registry and is
preserved by `add_tool_handler`, hence holds for every reachable state. -/
def WFRegistry (reg : Registry) : Prop :=
  (reg.map Prod.fst).Nodup ∧ ∀ p ∈ reg, p.1 = p.2.name

/-!  Lemmas about the Python-dict model. -/

lemma dictGet_dictSet (reg : Registry) (k : String) (v : ToolHandler) (n : String) :
    dictGet (dictSet reg k v) n = if n = k then some v else dictGet reg n := by
  induction reg with
  | nil =>
    by_cases hn : n = k
    · simp [dictSet, dictGet, hn]
    · simp [dictSet, dictGet, hn, Ne.symm hn]
  | cons p rest ih =>
    by_cases hpk : p.1 = k
    · by_cases hn : n = k
      · simp [dictSet, dictGet, hpk, hn]
      · have hkn : ¬k = n := fun h => hn h.symm
        simp [dictSet, dictGet, hpk, hn, hkn]
    · by_cases hn : p.1 = n
      · have hnk : ¬n = k := fun h => hpk (hn.trans h)
        simp [dictSet, dictGet, hpk, hn, hnk]
      · simp [dictSet, dictGet, hpk, hn, ih]

lemma map_fst_dictSet (reg : Registry) (k : String) (v : ToolHandler) :
    (dictSet reg k v).map Prod.fst =
      if k ∈ reg.map Prod.fst then reg.map Prod.fst else reg.map Prod.fst ++ [k] := by
  induction reg with
  | nil => simp [dictSet]
  | cons p rest ih =>
    by_cases hpk : p.1 = k
    · simp [dictSet, hpk]
    · have hne : ¬k = p.1 := fun h => hpk h.symm
      by_cases hmem : k ∈ rest.map Prod.fst <;>
        simp [dictSet, hpk, hne, hmem, ih]

lemma length_dictSet (reg : Registry) (k : String) (v : ToolHandler) :
    (dictSet reg k v).length =
      if k ∈ reg.map Prod.fst then reg.length else reg.length + 1 := by
  have h := congrArg List.length (map_fst_dictSet reg k v)
  by_cases hmem : k ∈ reg.map Prod.fst <;>
    simp [hmem] at h <;> simp [hmem, h]

lemma mem_dictSet (reg : Registry) (k : String) (v : ToolHandler) (p : String × ToolHandler)
    (hp : p ∈ dictSet reg k v) : p = (k, v) ∨ p ∈ reg := by
  induction reg with
  | nil => simpa [dictSet] using hp
  | cons q rest ih =>
    by_cases hqk : q.1 = k
    · rcases (by simpa [dictSet, hqk] using hp) with h | h
      · exact Or.inl h
      · exact Or.inr (List.mem_cons_of_mem q h)
    · rcases (by simpa [dictSet, hqk] using hp) with h | h
      · exact Or.inr (by simp [h])
      · rcases ih h with h' | h'
        · exact Or.inl h'
        · exact Or.inr (List.mem_cons_of_mem q h')

/-- The empty initial registry is well formed. -/
lemma wf_empty : WFRegistry [] := by
  constructor
  · simp
  · intro p hp; cases hp

/-- `add_tool_handler` preserves registry well-formedness, so every
reachable registry state is well formed. -/
lemma wf_add (reg : Registry) (h : ToolHandler) (hwf : WFRegistry reg) :
    WFRegistry (add_tool_handler reg h) := by
  constructor
  · rw [add_tool_handler, map_fst_dictSet]
    by_cases hmem : h.name ∈ reg.map Prod.fst
    · simpa [hmem] using hwf.1
    · simp only [hmem, if_false]
      rw [List.nodup_append]
      exact ⟨hwf.1, List.nodup_singleton _, by
        intro a ha hb
        rcases List.mem_singleton.mp hb with rfl
        exact hmem ha⟩
  · intro p hp
    rcases mem_dictSet reg h.name h p hp with rfl | hmem
    · rfl
    · exact hwf.2 p hmem

/-- Every reading produced by the zip carries the lookup-table translation
of its own weather code. -/
lemma mem_zipReadings (ts : List String) (cs : List Rat) (hs : List Int) (ds : List Rat)
    (ws : List Int) (r : WeatherReading) (hr : r ∈ zipReadings ts cs hs ds ws) :
    r.weather_descr = weather_description r.weather_code := by
  induction ts generalizing cs hs ds ws with
  | nil => simp [zipReadings] at hr
  | cons t ts ih =>
    cases cs with
    | nil => simp [zipReadings] at hr
    | cons c cs =>
      cases hs with
      | nil => simp [zipReadings] at hr
      | cons hh hs =>
        cases ds with
        | nil => simp [zipReadings] at hr
        | cons d ds =>
          cases ws with
          | nil => simp [zipReadings] at hr
          | cons w ws =>
            rcases (by simpa [zipReadings] using hr) with h | h
            · subst h; rfl
            · exact ih cs hs ds ws h

/-!  The claims. -/

/-- Claim C1: for every tool name and every argument value, if any failure
is raised during argument validation, handler lookup or handler execution,
`call_tool` catches it and returns a sequence of exactly one text Content
whose body is `Error executing tool '<name>': <message>`; `call_tool` is
total, so the failure never reaches the transport layer. -/
theorem C1_dispatcher_catches_all (reg : Registry) (u : Upstream) (name : String)
    (arguments : PyValue) (e : PyExc)
    (h : (call_tool_body reg u name arguments).1 = .error e) :
    call_tool reg u name arguments = errorContent name e.msg := by
  unfold call_tool
  rw [h]

/-- Witness for C1: dispatching the unregistered tool `nope` raises inside
the body and `call_tool` converts it to the single error text Content. -/
theorem C1_dispatcher_catches_all_witness :
    (call_tool_body [] mock_upstream "nope" (PyValue.dict [])).1 =
      .error (.valueError ("Unknown tool: " ++ "nope")) ∧
    call_tool [] mock_upstream "nope" (PyValue.dict []) =
      errorContent "nope" (PyExc.msg (.valueError ("Unknown tool: " ++ "nope"))) :=
  ⟨rfl, C1_dispatcher_catches_all [] mock_upstream "nope" (PyValue.dict [])
    (.valueError ("Unknown tool: " ++ "nope")) rfl⟩

/-- Claim C2: for every tool name not present in the registry,
`call_tool(name, \x7b\x7d)` returns a single text Content whose body contains
the literal tool name and an `Unknown tool` indication, and never raises. -/
theorem C2_unknown_tool (reg : Registry) (u : Upstream) (name : String)
    (h : get_tool_handler reg name = none) :
    call_tool reg u name (PyValue.dict []) =
      errorContent name ("Unknown tool: " ++ name) := by
  simp [call_tool, call_tool_body, h, PyExc.msg]

/-- Witness for C2: the empty registry holds no tool named `bogus`. -/
theorem C2_unknown_tool_witness :
    get_tool_handler [] "bogus" = none ∧
    call_tool [] mock_upstream "bogus" (PyValue.dict []) =
      errorContent "bogus" ("Unknown tool: " ++ "bogus") :=
  ⟨rfl, C2_unknown_tool [] mock_upstream "bogus" rfl⟩

/-- Claim C3: for every input whose arguments value is not a mapping, the
dispatch body rejects the call before any handler is invoked — it raises the
argument-validation error the spec calls `InvalidArgumentError`, realized in
the code as `RuntimeError("Arguments must be a dictionary")` — and the
dispatcher converts it into a single error text Content. -/
theorem C3_nondict_rejected (reg : Registry) (u : Upstream) (name : String)
    (arguments : PyValue) (h : arguments.isDict = false) :
    (call_tool_body reg u name arguments).1 =
      .error (.runtimeError "Arguments must be a dictionary") ∧
    call_tool_invoked reg u name arguments = [] ∧
    call_tool reg u name arguments =
      errorContent name "Arguments must be a dictionary" := by
  cases arguments <;>
    simp_all [PyValue.isDict, call_tool, call_tool_body, call_tool_invoked, PyExc.msg]

/-- Witness for C3: a bare string argument value is not a mapping and is
rejected with the single error text Content. -/
theorem C3_nondict_rejected_witness :
    PyValue.isDict (PyValue.str "oops") = false ∧
    call_tool [] mock_upstream "get_current_weather" (PyValue.str "oops") =
      errorContent "get_current_weather" "Arguments must be a dictionary" :=
  ⟨rfl, (C3_nondict_rejected [] mock_upstream "get_current_weather"
    (PyValue.str "oops") rfl).2.2⟩

/-- Claim C4, counterexample: registering a second handler whose declared
name `dup` is already present signals no error at all — `add_tool_handler`
silently rebinds the name to the new handler, leaving a one-entry registry. -/
theorem C4_counterexample_silent_overwrite :
    get_tool_handler (add_tool_handler (add_tool_handler [] dup_handler_A) dup_handler_B)
      "dup" = some dup_handler_B ∧
    (add_tool_handler (add_tool_handler [] dup_handler_A) dup_handler_B).length = 1 :=
  ⟨rfl, rfl⟩

/-- Claim C4 as amended: `add_tool_handler` never signals an error; it
always inserts the handler under its declared name, replacing any existing
handler with that name in place and appending when the name is fresh. -/
theorem C4_amended_register_inserts (reg : Registry) (h : ToolHandler) :
    get_tool_handler (add_tool_handler reg h) h.name = some h ∧
    (add_tool_handler reg h).length =
      (if h.name ∈ reg.map Prod.fst then reg.length else reg.length + 1) := by
  refine ⟨?_, length_dictSet reg h.name h⟩
  rw [get_tool_handler, add_tool_handler, dictGet_dictSet]
  simp

/-- Claim C5: for every well-formed registry state (all reachable states
are), `list_tools` returns exactly one descriptor per registered handler;
the descriptor names are, in registration order, exactly the handlers'
declared names, which are the registry keys, and they are unique. -/
theorem C5_list_tools_descriptors (reg : Registry) (hwf : WFRegistry reg) :
    (list_tools reg).length = reg.length ∧
    (list_tools reg).map Tool.name = reg.map (fun p => p.2.name) ∧
    (list_tools reg).map Tool.name = reg.map Prod.fst ∧
    ((list_tools reg).map Tool.name).Nodup := by
  have hnames : (list_tools reg).map Tool.name = reg.map (fun p => p.2.name) := by
    simp [list_tools, ToolHandler.get_tool_description, Function.comp]
  have hkeys : (list_tools reg).map Tool.name = reg.map Prod.fst := by
    rw [hnames]
    exact List.map_congr_left fun p hp => (hwf.2 p hp).symm
  exact ⟨by simp [list_tools], hnames, hkeys, hkeys ▸ hwf.1⟩

/-- Witness for C5: the registry produced by `register_all_tools` is well
formed and its six listed descriptor names are unique. -/
theorem C5_list_tools_descriptors_witness :
    WFRegistry (register_all_tools []) ∧
    ((list_tools (register_all_tools [])).map Tool.name).Nodup :=
  ⟨⟨by decide, by decide⟩,
    (C5_list_tools_descriptors (register_all_tools []) ⟨by decide, by decide⟩).2.2.2⟩

/-- Claim C6: every dispatch invokes at most one handler — none when
validation or lookup fails, exactly the looked-up one otherwise — and
neither `call_tool` nor `list_tools` mutates the registry: the registry
state after each call is the state before it. -/
theorem C6_at_most_one_handler_no_mutation (reg : Registry) (u : Upstream)
    (name : String) (arguments : PyValue) :
    (call_tool_invoked reg u name arguments).length ≤ 1 ∧
    (arguments.isDict = false → call_tool_invoked reg u name arguments = []) ∧
    (get_tool_handler reg name = none → call_tool_invoked reg u name arguments = []) ∧
    (∀ th, arguments.isDict = true → get_tool_handler reg name = some th →
      call_tool_invoked reg u name arguments = [th.name]) ∧
    (call_tool_st reg u name arguments).2 = reg ∧
    (list_tools_st reg).2 = reg := by
  refine ⟨?_, ?_, ?_, ?_, rfl, rfl⟩ <;>
    cases arguments <;>
      cases hh : get_tool_handler reg name <;>
        simp_all [call_tool_invoked, call_tool_body, PyValue.isDict]

/-- Witness for C6: a non-mapping argument value leads to zero handler
invocations, and with the `city` mapping exactly the current-weather handler
runs; the registry is unchanged either way. -/
theorem C6_at_most_one_handler_no_mutation_witness :
    (PyValue.isDict (PyValue.str "x") = false ∧
      call_tool_invoked (register_all_tools []) mock_upstream "get_current_weather"
        (PyValue.str "x") = []) ∧
    (call_tool_st (register_all_tools []) mock_upstream "get_current_weather"
        (PyValue.str "x")).2 = register_all_tools [] :=
  ⟨⟨rfl, (C6_at_most_one_handler_no_mutation (register_all_tools []) mock_upstream
      "get_current_weather" (PyValue.str "x")).2.1 rfl⟩,
    (C6_at_most_one_handler_no_mutation (register_all_tools []) mock_upstream
      "get_current_weather" (PyValue.str "x")).2.2.2.2.1⟩

/-- Claim C7: the dispatch pipeline is deterministic in its inputs — two
calls with identical name, identical arguments and identical upstream
provider responses return identical Content sequences. -/
theorem C7_dispatch_deterministic (reg : Registry) (u u' : Upstream)
    (name name' : String) (args args' : PyValue)
    (hn : name = name') (ha : args = args') (hu : u = u') :
    call_tool reg u name args = call_tool reg u' name' args' := by
  subst hn; subst ha; subst hu; rfl

/-- Witness for C7: the current-weather call for New York against the mock
upstream yields the same Content both times. -/
theorem C7_dispatch_deterministic_witness :
    call_tool (register_all_tools []) mock_upstream "get_current_weather"
        (PyValue.dict [("city", PyValue.str "New York")]) =
      call_tool (register_all_tools []) mock_upstream "get_current_weather"
        (PyValue.dict [("city", PyValue.str "New York")]) :=
  C7_dispatch_deterministic (register_all_tools []) mock_upstream mock_upstream
    "get_current_weather" "get_current_weather"
    (PyValue.dict [("city", PyValue.str "New York")])
    (PyValue.dict [("city", PyValue.str "New York")]) rfl rfl rfl

/-- Claim C8: when the geocoding provider returns an empty results array,
the Coordinate Resolver signals `NotFoundError`, and a CurrentWeather
dispatch for that city returns a single error text Content mentioning that
the city was not found, without raising to the caller. -/
theorem C8_city_not_found (reg : Registry) (u : Upstream) (city : String)
    (hreg : get_tool_handler reg "get_current_weather" =
      some GetCurrentWeatherToolHandler)
    (hgeo : u.geo.results = []) :
    resolve_coordinates city u.geo =
      .error (.notFoundError ("City '" ++ city ++ "' not found")) ∧
    call_tool reg u "get_current_weather" (PyValue.dict [("city", PyValue.str city)]) =
      errorContent "get_current_weather" ("City '" ++ city ++ "' not found") := by
  have hres : resolve_coordinates city u.geo =
      .error (.notFoundError ("City '" ++ city ++ "' not found")) := by
    unfold resolve_coordinates
    rw [hgeo]
  refine ⟨hres, ?_⟩
  simp [call_tool, call_tool_body, hreg, GetCurrentWeatherToolHandler,
    get_current_weather_run, argsGet, hres, PyExc.msg]

/-- Witness for C8: against the empty mock geocoding response, the
current-weather call for Springfield degrades to the not-found error
Content. -/
theorem C8_city_not_found_witness :
    get_tool_handler (register_all_tools []) "get_current_weather" =
      some GetCurrentWeatherToolHandler ∧
    not_found_upstream.geo.results = [] ∧
    call_tool (register_all_tools []) not_found_upstream "get_current_weather"
        (PyValue.dict [("city", PyValue.str "Springfield")]) =
      errorContent "get_current_weather" ("City '" ++ "Springfield" ++ "' not found") :=
  ⟨rfl, rfl, (C8_city_not_found (register_all_tools []) not_found_upstream
    "Springfield" rfl rfl).2⟩

/-- Claim C9: every WeatherReading produced by the Weather Lookup carries
the static lookup-table translation of its numeric weather code; code 0
maps to `Clear sky`, code 1 to `Mainly clear`, and every code absent from
the table maps to the generic `Unknown` description rather than failing. -/
theorem C9_weather_code_table (h : HourlyData) (readings : List WeatherReading)
    (hok : fetch_readings h = .ok readings) :
    weather_description 0 = "Clear sky" ∧
    weather_description 1 = "Mainly clear" ∧
    (∀ c : Int, c ≠ 0 → c ≠ 1 → weather_description c = "Unknown") ∧
    ∀ r ∈ readings, r.weather_descr = weather_description r.weather_code := by
  refine ⟨rfl, rfl, ?_, ?_⟩
  · intro c h0 h1
    simp [weather_description, h0, h1]
  · intro r hr
    have hzip : readings = zipReadings h.time h.temperature_2m
        h.relative_humidity_2m h.dew_point_2m h.weather_code := by
      unfold fetch_readings at hok
      split at hok
      · simpa using hok.symm
      · cases hok
    exact mem_zipReadings _ _ _ _ _ r (hzip ▸ hr)

/-- Witness for C9: the mock hourly response with codes 0 and 1 zips into
two readings described as `Clear sky` and `Mainly clear`. -/
theorem C9_weather_code_table_witness :
    fetch_readings mock_weather_response = .ok mock_readings ∧
    ∀ r ∈ mock_readings, r.weather_descr = weather_description r.weather_code :=
  ⟨rfl, (C9_weather_code_table mock_weather_response mock_readings rfl).2.2.2⟩

/-- Claim C10: `get_tool_handler` is total — after any registration it
returns the most recently registered handler of the queried name, and
`None` (here `none`) when the name was never registered; in particular,
immediately after `add_tool_handler h` it returns `h` at `h.name`. -/
theorem C10_get_tool_handler_total (reg : Registry) (h : ToolHandler) (n : String) :
    (get_tool_handler (add_tool_handler reg h) n =
      if n = h.name then some h else get_tool_handler reg n) ∧
    get_tool_handler ([] : Registry) n = none ∧
    get_tool_handler (add_tool_handler reg h) h.name = some h := by
  refine ⟨dictGet_dictSet reg h.name h n, rfl, ?_⟩
  rw [get_tool_handler, add_tool_handler, dictGet_dictSet]
  simp

end McpWeather
